import Mathlib

/-!
Verification of the reporting / check-orchestration layer of the c-analyzer
tool (`Tools/c-analyzer/c_analyzer/__main__.py`).

The Python module is embedded shallowly:

* pure helpers (`_render_table`, `build_section`, the `fmt_*` strategies,
  `_get_check_handlers`) become Lean functions over an `Entity` record type;
* the `while` loop resolving section aliases becomes a fuel-indexed
  recursion (the fuel exceeds any chain length in the fixed table);
* the stateful commands (`cmd_check`, `cmd_analyze`) become functions from
  their inputs to the list of observable events (log lines, printed lines,
  the analyzer invocation) paired with an outcome value (normal return,
  `sys.exit(n)`, or a raised error);
* Python `sorted` (a stable ascending sort) is modelled by
  `List.mergeSort` with the corresponding boolean `le` relation, and Python
  string/tuple comparison by explicit lexicographic comparison of
  character lists.

External collaborators (`c_parser.info`, `c_common`, the analyzer, the
check implementations, `os.path.relpath`, Python `repr`) are not part of
the source tree; where a definition depends on one it is modelled from
the specification and marked `Modelled from the spec:` in its doc comment.
-/

namespace CAnalyzer

/-! ### Lexicographic comparison of strings and key tuples

Python compares strings lexicographically by code point and tuples of
strings elementwise; `sorted(..., key=...)` is a stable ascending sort.
-/

/-- Strict lexicographic order on character lists (Python string `<`). -/
def charListLt : List Char → List Char → Bool
  | [], [] => false
  | [], _ :: _ => true
  | _ :: _, [] => false
  | a :: as, b :: bs => if a < b then true else if b < a then false else charListLt as bs

/-- Python string `<` (lexicographic by code point). -/
def strLt (a b : String) : Bool := charListLt a.data b.data

/-- Non-strict lexicographic order on string lists: Python tuple `<=`,
used as the `le` relation of the stable sort over section sort keys. -/
def keyLe : List String → List String → Bool
  | [], _ => true
  | _ :: _, [] => false
  | a :: as, b :: bs => if strLt a b then true else if strLt b a then false else keyLe as bs

theorem charListLt_eq_of_not : ∀ (a b : List Char),
    charListLt a b = false → charListLt b a = false → a = b
  | [], [], _, _ => rfl
  | [], _ :: _, h1, _ => by simp [charListLt] at h1
  | _ :: _, [], _, h2 => by simp [charListLt] at h2
  | a :: as, b :: bs, h1, h2 => by
    simp only [charListLt] at h1 h2
    by_cases hab : a < b
    · simp [hab] at h1
    · by_cases hba : b < a
      · simp [hab, hba] at h2
      · have hEq : a = b := le_antisymm (le_of_not_lt hba) (le_of_not_lt hab)
        simp only [hab, hba, if_false, hEq] at h1 h2
        simp only [lt_irrefl, if_false] at h1 h2
        rw [hEq, charListLt_eq_of_not as bs h1 h2]

theorem charListLt_trans : ∀ (a b c : List Char),
    charListLt a b = true → charListLt b c = true → charListLt a c = true
  | [], [], _, h1, _ => by simp [charListLt] at h1
  | [], _ :: _, [], _, h2 => by simp [charListLt] at h2
  | [], _ :: _, _ :: _, _, _ => by simp [charListLt]
  | _ :: _, [], _, h1, _ => by simp [charListLt] at h1
  | _ :: _, _ :: _, [], _, h2 => by simp [charListLt] at h2
  | a :: as, b :: bs, c :: cs, h1, h2 => by
    simp only [charListLt] at h1 h2 ⊢
    by_cases hab : a < b
    · by_cases hbc : b < c
      · have : a < c := lt_trans hab hbc
        simp [this]
      · by_cases hcb : c < b
        · simp [hab, hbc, hcb] at h2
        · have : b = c := le_antisymm (le_of_not_lt hcb) (le_of_not_lt hbc)
          subst this
          simp [hab]
    · by_cases hba : b < a
      · simp [hab, hba] at h1
      · have hEq : a = b := le_antisymm (le_of_not_lt hba) (le_of_not_lt hab)
        subst hEq
        simp only [hab, hba, if_false] at h1
        by_cases hbc : a < c
        · simp [hbc]
        · by_cases hcb : c < a
          · simp [hbc, hcb] at h2
          · simp only [hbc, hcb, if_false] at h2 ⊢
            exact charListLt_trans as bs cs h1 h2

theorem strLt_eq_of_not (a b : String) (h1 : strLt a b = false) (h2 : strLt b a = false) :
    a = b :=
  String.ext (charListLt_eq_of_not a.data b.data h1 h2)

theorem strLt_trans (a b c : String) (h1 : strLt a b = true) (h2 : strLt b c = true) :
    strLt a c = true :=
  charListLt_trans a.data b.data c.data h1 h2

theorem keyLe_total : ∀ (a b : List String), (keyLe a b || keyLe b a) = true
  | [], _ => by simp [keyLe]
  | _ :: _, [] => by simp [keyLe]
  | a :: as, b :: bs => by
    simp only [keyLe]
    by_cases hab : strLt a b = true
    · simp [hab]
    · by_cases hba : strLt b a = true
      · simp [hba]
      · have hEq : a = b :=
          strLt_eq_of_not a b (Bool.eq_false_iff.mpr hab) (Bool.eq_false_iff.mpr hba)
        subst hEq
        simp only [hab, if_false]
        exact keyLe_total as bs

theorem keyLe_trans : ∀ (a b c : List String),
    keyLe a b = true → keyLe b c = true → keyLe a c = true
  | [], _, _, _, _ => by simp [keyLe]
  | _ :: _, [], _, h1, _ => by simp [keyLe] at h1
  | _ :: _, _ :: _, [], _, h2 => by simp [keyLe] at h2
  | a :: as, b :: bs, c :: cs, h1, h2 => by
    simp only [keyLe] at h1 h2 ⊢
    by_cases hab : strLt a b = true
    · by_cases hbc : strLt b c = true
      · simp [strLt_trans a b c hab hbc]
      · by_cases hcb : strLt c b = true
        · simp [hbc, hcb] at h2
        · have hEq : b = c :=
            strLt_eq_of_not b c (Bool.eq_false_iff.mpr hbc) (Bool.eq_false_iff.mpr hcb)
          subst hEq
          simp [hab]
    · by_cases hba : strLt b a = true
      · simp [hab, hba] at h1
      · have hEq : a = b :=
          strLt_eq_of_not a b (Bool.eq_false_iff.mpr hab) (Bool.eq_false_iff.mpr hba)
        subst hEq
        simp only [hab, hba, if_false] at h1 ⊢
        by_cases hbc : strLt a c = true
        · simp [hbc]
        · by_cases hcb : strLt c a = true
          · simp [hbc, hcb] at h2
          · simp only [hbc, hcb, if_false] at h2 ⊢
            exact keyLe_trans as bs cs h1 h2

/-! ### Data model

`KIND` mirrors the `KIND` enumeration of `c_parser.info` restricted to the
seven members listed in the module's `KINDS`; `Entity` is the read-only
contract this layer consumes from analyzed items (spec section 3):
`kind`, `name`, `filename` (empty when unknown), `parent`, `is_known`,
the derived identifiers `shortkey` and `key`, the per-column rendering
`render_rowdata` (here `rowdata`), the per-style `render`, and the Python
`repr` text (here `rep`).
-/

inductive KIND where
  | TYPEDEF
  | STRUCT
  | UNION
  | ENUM
  | FUNCTION
  | VARIABLE
  | STATEMENT
deriving DecidableEq, Repr

/-- The module-level `KINDS` list, in source order. -/
def KINDS : List KIND :=
  [.TYPEDEF, .STRUCT, .UNION, .ENUM, .FUNCTION, .VARIABLE, .STATEMENT]

/-- Modelled from the spec: `KIND.value` of `c_parser.info` (not under `src/`),
the lowercase kind label used in table cells (spec section 3 lists the kind
set as typedef/struct/union/enum/function/variable/statement). -/
def KIND.value : KIND → String
  | .TYPEDEF => "typedef"
  | .STRUCT => "struct"
  | .UNION => "union"
  | .ENUM => "enum"
  | .FUNCTION => "function"
  | .VARIABLE => "variable"
  | .STATEMENT => "statement"

/-- Modelled from the spec: `is_type_decl` of `c_parser.info` (not under
`src/`); the "types" section covers typedef/struct/union/enum (spec
sections 4.2 and 8). -/
def is_type_decl (k : KIND) : Bool :=
  k = .TYPEDEF || k = .STRUCT || k = .UNION || k = .ENUM

/-- A `parent` value: either a plain string label or a reference to another
entity, of which this layer uses only the `name` attribute and the `str()`
text (spec section 3). -/
inductive Parent where
  | str (s : String)
  | ref (name : String) (strText : String)

/-- Python `str(parent)`. -/
def Parent.toStr : Parent → String
  | .str s => s
  | .ref _ t => t

/-- Python truthiness of a parent value: an empty string is falsy, an
entity reference is truthy. -/
def Parent.truthy : Parent → Bool
  | .str s => s ≠ ""
  | .ref _ _ => true

/-- `parent if isinstance(parent, str) else parent.name`. -/
def Parent.nameOf : Parent → String
  | .str s => s
  | .ref n _ => n

/-- The analyzed-entity contract consumed by this layer. -/
structure Entity where
  kind : KIND
  name : String
  /-- source path, `""` when unknown (so Python's `filename or ''` is the
  identity here). -/
  filename : String
  parent : Option Parent
  is_known : Bool
  shortkey : String
  key : String
  /-- `render_rowdata(columns)[c]`: the entity's own cell text for column `c`. -/
  rowdata : String → String
  /-- `render(fmt)`: the entity's own per-style line rendering. -/
  render : String → List String
  /-- Python `repr(entity)` text. -/
  rep : String

/-- `parent = data.parent or ''; funcname = parent if isinstance(parent, str)
else parent.name` — the parent function name used by the failure handlers
(empty when there is none). -/
def Entity.funcname (d : Entity) : String :=
  match d.parent with
  | none => ""
  | some p => Parent.nameOf p

/-- `str(v.parent) if v.parent else ''` as used in the section sort keys. -/
def Entity.parentStr (d : Entity) : String :=
  match d.parent with
  | none => ""
  | some p => if Parent.truthy p then Parent.toStr p else ""

/-! ### `TABLE_SECTIONS` and `build_section`

The Python table maps mixed keys (section-name strings and `KIND` members)
to either a `(columns, match_kind, sortkey)` tuple or an alias key.  The
four tuple values are identified here by `SectionTag`; `sectionInfoOf`
recovers the tuple itself.  Sort keys become uniform `List String` values
compared with `keyLe` (Python compares the key tuples lexicographically
componentwise).
-/

/-- Identifies one of the tuple-valued (canonical) entries of
`TABLE_SECTIONS`. -/
inductive SectionTag where
  | types
  | functions
  | variables
  | statements
deriving DecidableEq, Repr

/-- A `(columns, match_kind, sortkey)` tuple of `TABLE_SECTIONS`. -/
structure SectionInfo where
  columns : List String
  match_kind : KIND → Bool
  sortkey : Entity → List String

/-- The canonical tuples of `TABLE_SECTIONS`, by tag. -/
def sectionInfoOf : SectionTag → SectionInfo
  | .types =>
    { columns := ["kind", "name", "data", "file"]
      match_kind := is_type_decl
      sortkey := fun v => [v.kind.value, v.filename, v.name] }
  | .functions =>
    { columns := ["name", "data", "file"]
      match_kind := fun kind => kind = .FUNCTION
      sortkey := fun v => [v.filename, v.name] }
  | .variables =>
    { columns := ["name", "parent", "data", "file"]
      match_kind := fun kind => kind = .VARIABLE
      sortkey := fun v => [v.filename, v.parentStr, v.name] }
  | .statements =>
    { columns := ["file", "parent", "data"]
      match_kind := fun kind => kind = .STATEMENT
      sortkey := fun v => [v.filename, v.parentStr, v.name] }

/-- A key of the `TABLE_SECTIONS` dict: a string or a `KIND` member. -/
inductive TableKey where
  | str (s : String)
  | kind (k : KIND)
deriving DecidableEq, Repr

/-- A value of the `TABLE_SECTIONS` dict: a canonical tuple or an alias
(string) key. -/
inductive TableVal where
  | triple (tag : SectionTag)
  | aliasTo (s : String)
deriving DecidableEq, Repr

/-- The entries of `TABLE_SECTIONS`, in source order. -/
def tableEntries : List (TableKey × TableVal) :=
  [ (.str "types", .triple .types),
    (.str "typedefs", .aliasTo "types"),
    (.str "structs", .aliasTo "types"),
    (.str "unions", .aliasTo "types"),
    (.str "enums", .aliasTo "types"),
    (.str "functions", .triple .functions),
    (.str "variables", .triple .variables),
    (.str "statements", .triple .statements),
    (.kind .TYPEDEF, .aliasTo "typedefs"),
    (.kind .STRUCT, .aliasTo "structs"),
    (.kind .UNION, .aliasTo "unions"),
    (.kind .ENUM, .aliasTo "enums"),
    (.kind .FUNCTION, .aliasTo "functions"),
    (.kind .VARIABLE, .aliasTo "variables"),
    (.kind .STATEMENT, .aliasTo "statements") ]

/-- `TABLE_SECTIONS[k]` (`none` models a `KeyError`). -/
def lookupTable (k : TableKey) : Option TableVal := tableEntries.lookup k

/-- The keys of `TABLE_SECTIONS`. -/
def tableKeys : List TableKey := tableEntries.map Prod.fst

/-- Modelled from the spec: Python `str()` of a `KIND` enum member
(`c_parser.info` is not under `src/`); enum members format as
`KIND.<NAME>`.  Unreachable after a successful resolution, which always
ends on a string name. -/
def KIND.pyStr : KIND → String
  | .TYPEDEF => "KIND.TYPEDEF"
  | .STRUCT => "KIND.STRUCT"
  | .UNION => "KIND.UNION"
  | .ENUM => "KIND.ENUM"
  | .FUNCTION => "KIND.FUNCTION"
  | .VARIABLE => "KIND.VARIABLE"
  | .STATEMENT => "KIND.STATEMENT"

/-- The f-string text of a table key (used for the `"<name>:"` line). -/
def TableKey.fstr : TableKey → String
  | .str s => s
  | .kind k => k.pyStr

/-- Errors out of the alias-resolution loop: a `KeyError` on a missing
table key, or fuel exhaustion (the Python loop is unbounded; the fixed
table never exhausts `tableFuel`). -/
inductive ResolveErr where
  | keyError
  | fuelOut
deriving DecidableEq, Repr

/-- The `while type(info) is not tuple` loop of `build_section`: while the
looked-up value is an alias, replace a `KIND`-valued `name` by the alias
string (`if name in KINDS: name = info`) and look the alias up again. -/
def resolveLoop : Nat → TableKey → TableVal → Except ResolveErr (TableKey × SectionTag)
  | _, name, .triple t => .ok (name, t)
  | 0, _, .aliasTo _ => .error .fuelOut
  | Nat.succ fuel, name, .aliasTo a =>
    let name1 := match name with
      | .kind _ => TableKey.str a
      | .str _ => name
    match lookupTable (.str a) with
    | none => .error .keyError
    | some v => resolveLoop fuel name1 v

/-- Loop bound: the size of `TABLE_SECTIONS` (spec section 9 suggests
`max depth = table size`). -/
def tableFuel : Nat := 15

/-- `info = TABLE_SECTIONS[name]` followed by the alias-resolution loop. -/
def resolveSection (name : TableKey) : Except ResolveErr (TableKey × SectionTag) :=
  match lookupTable name with
  | none => .error .keyError
  | some v => resolveLoop tableFuel name v

/-- Modelled from the spec: `os.path.relpath` (Python stdlib, not under
`src/`); spec section 8: with root `/src`, `/src/geom.c` renders as
`geom.c`.  Only the strip-the-root-prefix case is exercised here; other
inputs are returned unchanged. -/
def relpath (path root : String) : String :=
  if (root ++ "/").data.isPrefixOf path.data then
    String.mk (path.data.drop (root.data.length + 1))
  else path

/-- The divider line of `_render_table`. -/
def TABLE_DIV : String := "--------------------"

/-- One table row of `_render_table`, before tab-joining:
`row = [rowdata[c] for c in columns]`, with the `file` cell replaced by
`os.path.relpath(row[index], relroot)` when `relroot` is truthy and
`'file'` is among the columns. -/
def rowFor (item : Entity) (columns : List String) (relroot : Option String) : List String :=
  let row := columns.map item.rowdata
  match relroot with
  | some root =>
    if root ≠ "" ∧ "file" ∈ columns then
      let index := columns.indexOf "file"
      row.set index (relpath (row.getD index "") root)
    else row
  | none => row

/-- The per-item tail of the `_render_table` generator, carrying the
running `total` counter exactly as the Python loop does. -/
def render_rows (columns : List String) (relroot : Option String) :
    List Entity → Nat → List String
  | [], total => [TABLE_DIV, "total: " ++ toString total]
  | item :: rest, total =>
    String.intercalate "\t" (rowFor item columns relroot) ::
      render_rows columns relroot rest (total + 1)

/-- `_render_table`: header, divider, rows, divider, total line. -/
def render_table (items : List Entity) (columns : List String) (relroot : Option String) :
    List String :=
  String.intercalate "\t" columns :: TABLE_DIV :: render_rows columns relroot items 0

/-- The filter-and-sort step of `build_section`:
`items = sorted((v for v in groupitems if match_kind(v.kind)), key=sortkey)`. -/
def sortOf (si : SectionInfo) (groupitems : List Entity) : List Entity :=
  (groupitems.filter (fun v => si.match_kind v.kind)).mergeSort
    (fun a b => keyLe (si.sortkey a) (si.sortkey b))

/-- `build_section(name, groupitems, relroot=relroot)`: resolve the section,
filter and sort the items, and return them with the rendered line
sequence (blank, `"<name>:"`, blank, table). -/
def build_section (name : TableKey) (groupitems : List Entity) (relroot : Option String) :
    Except ResolveErr (List Entity × List String) :=
  match resolveSection name with
  | .error e => .error e
  | .ok (nm, tag) =>
    let si := sectionInfoOf tag
    let items := sortOf si groupitems
    .ok (items, "" :: (nm.fstr ++ ":") :: "" :: render_table items si.columns relroot)

/-! ### Failure handlers and `cmd_check`

The stateful commands are embedded as functions returning the list of
observable events (printed lines, log lines, the analyzer invocation) and
an outcome.  `sys.exit(n)` becomes the outcome `CmdResult.exited n`;
raised exceptions become the error outcomes.
-/

/-- An observable side effect of a command run. -/
inductive CmdEvent where
  | logInfo (s : String)
  | logWarn (s : String)
  | printerInfo (s : String)
  | output (s : String)
  | analyze
deriving DecidableEq, Repr

/-- The exceptions `_get_check_handlers` can raise: `NotImplementedError`
(dead branch) or `ValueError('unsupported fmt ...')`. -/
inductive HandlersErr where
  | notImplemented (fmt : String)
  | valueError (msg : String)
deriving DecidableEq, Repr

/-- The outcome of a command: normal return, `sys.exit(code)`, a
`KeyError` on an unknown check name, a format-selection error, or a
propagated section-table error. -/
inductive CmdResult where
  | ok
  | exited (code : Nat)
  | keyError (name : String)
  | fmtError (e : HandlersErr)
  | tableError (e : ResolveErr)
deriving DecidableEq, Repr

/-- The failure-presentation strategy selected by `_get_check_handlers`
(`plain` is the no-format default). -/
inductive FailFmt where
  | plain
  | raw
  | brief
  | summary
  | full
deriving DecidableEq, Repr

/-- Modelled from the spec: Python `repr` of a string (language builtin);
quoting simplified to plain single quotes — no claim depends on the
escaping rules. -/
def pyRepr (s : String) : String := "'" ++ s ++ "'"

/-- The keys of the `FORMATS` dict, in source order. -/
def FORMAT_NAMES : List String := ["raw", "brief", "summary", "full"]

/-- `_get_check_handlers(fmt, ...)`: selects the failure-presentation
strategy and the divider policy (`div`).  A falsy `fmt` (absent or empty)
selects the plain logger-based handler with divider `''`; the four named
formats succeed; anything else raises `ValueError('unsupported fmt ...')`
(the `NotImplementedError` branch guards names that are in `FORMATS` but
not handled above, and is dead because all four are handled). -/
def get_check_handlers (fmt : Option String) : Except HandlersErr (FailFmt × Option String) :=
  match fmt with
  | none => .ok (.plain, some "")
  | some s =>
    if s = "" then .ok (.plain, some "")
    else if s = "raw" then .ok (.raw, none)
    else if s = "brief" then .ok (.brief, none)
    else if s = "summary" then .ok (.summary, none)
    else if s = "full" then .ok (.full, some "")
    else if s ∈ FORMAT_NAMES then .error (.notImplemented s)
    else .error (.valueError ("unsupported fmt " ++ pyRepr s))

/-- Left-justified fixed-width formatting, Python `'{:n}'.format(s)`. -/
def padTo (s : String) (n : Nat) : String :=
  s ++ String.mk (List.replicate (n - s.data.length) ' ')

/-- `funcname or "-"`. -/
def orDash (s : String) : String := if s = "" then "-" else s

/-- `failure.split('\t')[0]`: the prefix before the first tab. -/
def firstTabSegment (s : String) : String :=
  String.mk (s.data.takeWhile (fun c => c ≠ '\t'))

/-- The `handle_failure` closure of `_get_check_handlers`, as the list of
events it emits for one `(failure, data)` pair. -/
def handle_failure (f : FailFmt) (verbosity : Nat) (failure : String) (d : Entity) :
    List CmdEvent :=
  match f with
  | .plain =>
    if verbosity ≥ 3 then
      [.logInfo ("failure: " ++ failure), .logInfo ("data:    " ++ d.rep)]
    else
      [.logWarn ("failure: " ++ failure ++ " (data: " ++ d.rep ++ ")")]
  | .raw =>
    [.output (pyRepr failure ++ " " ++ d.rep)]
  | .brief =>
    let funcname := d.funcname
    let name := if funcname ≠ "" then "(" ++ funcname ++ ")." ++ d.name else d.name
    [.output (d.filename ++ ":" ++ name ++ " - " ++ firstTabSegment failure)]
  | .summary =>
    [.output (padTo d.filename 35 ++ "\t" ++ padTo (orDash d.funcname) 35 ++ "\t" ++
      padTo d.name 40 ++ "\t" ++ failure)]
  | .full =>
    let name := if d.kind = .VARIABLE then d.shortkey else d.name
    let known := if d.is_known then "yes" else "*** NO ***"
    [.output (d.kind.value ++ " " ++ pyRepr name ++ " failed (" ++ failure ++ ")"),
     .output ("  file:         " ++ d.filename),
     .output ("  func:         " ++ orDash d.funcname),
     .output ("  name:         " ++ d.name),
     .output ("  data:         ..."),
     .output ("  type unknown: " ++ known)]

/-- The consumption loop of `cmd_check` over the `(data, failure)` pairs
yielded by `_check_all`: a pair with `data = None` prints the stop notice
and breaks without touching `numfailed`; otherwise the divider (when set
and at least one failure was already handled), the failure block, and an
incremented counter. -/
def check_loop (f : FailFmt) (div : Option String) (verbosity : Nat) :
    List (Option Entity × String) → Nat → List CmdEvent × Nat
  | [], numfailed => ([], numfailed)
  | (none, _) :: _, numfailed =>
    ([.printerInfo "stopping after one failure"], numfailed)
  | (some d, failure) :: rest, numfailed =>
    let pre : List CmdEvent :=
      match div with
      | some dv => if numfailed > 0 then [.printerInfo dv] else []
      | none => []
    let evs := handle_failure f verbosity failure d
    let tail := check_loop f div verbosity rest (numfailed + 1)
    (pre ++ evs ++ tail.1, tail.2)

/-- `[_CHECKS[c] if isinstance(c, str) else c for c in checks]`, evaluated
left to right; the error carries the first unknown name (`KeyError`). -/
def resolveOne {χ : Type} (registry : List (String × χ)) :
    List String → Except String (List χ)
  | [] => .ok []
  | c :: cs =>
    match registry.lookup c with
    | none => .error c
    | some chk =>
      match resolveOne registry cs with
      | .error e => .error e
      | .ok rest => .ok (chk :: rest)

/-- The check-resolution prologue of `cmd_check`: an empty request list
falls back to the registry itself (iterating a dict yields its keys). -/
def resolveChecks {χ : Type} (registry : List (String × χ)) (requested : List String) :
    Except String (List χ) :=
  resolveOne registry (if requested.isEmpty then registry.map Prod.fst else requested)

/-- The number of real (non-sentinel) failures `cmd_check` consumes from a
result stream: entries before the first `data = None` sentinel. -/
def realCount : List (Option Entity × String) → Nat
  | [] => 0
  | (none, _) :: _ => 0
  | (some _, _) :: rest => realCount rest + 1

/-- `cmd_check`, with the filename plumbing, `relroot` filename rewriting
and the external analyzer abstracted: `results` stands for the stream
produced by `check_all(analyzed, checks, failfast=failfast)` and the
`analyze` event for the analyzer invocation.  After the loop the command
prints the separators and counts, then calls `sys.exit(numfailed)` when
any failure was counted. -/
def cmd_check {χ : Type} (registry : List (String × χ)) (checks : List String)
    (fmt : Option String) (verbosity : Nat)
    (results : List (Option Entity × String)) : List CmdEvent × CmdResult :=
  match resolveChecks registry checks with
  | .error c => ([], .keyError c)
  | .ok _ =>
    match get_check_handlers fmt with
    | .error e => ([], .fmtError e)
    | .ok (f, div) =>
      let run := check_loop f div verbosity results 0
      ([CmdEvent.logInfo "analyzing...", .analyze, .logInfo "checking..."] ++ run.1 ++
        [CmdEvent.printerInfo "-------------------------",
         .logInfo ("total failures: " ++ toString run.2),
         .logInfo "done checking"],
       if run.2 > 0 then .exited run.2 else .ok)

/-! ### The report formats and `cmd_analyze` -/

/-- `fmt_raw`: delegate to each entity's own raw rendering. -/
def fmt_raw (analysis : List Entity) : List String :=
  analysis.flatMap (fun item => item.render "raw")

/-- `sorted(analysis)`: the entities' natural total order, modelled (spec
section 3) by the derived stable sort identifier `key`. -/
def sortedNatural (analysis : List Entity) : List Entity :=
  analysis.mergeSort (fun a b => !(strLt b.key a.key))

/-- The entities `fmt_brief` renders, in rendering order: the nested
`for kind in KINDS` / `for item in items` loops flattened, with
`KIND.STATEMENT` skipped by the outer `continue`. -/
def briefBodyItems (analysis : List Entity) : List Entity :=
  (KINDS.filter (fun k => k ≠ .STATEMENT)).flatMap
    (fun kind => (sortedNatural analysis).filter (fun item => item.kind = kind))

/-- `fmt_brief`: the per-kind body followed by `"  total: <len(items)>"`,
where `items` is the full sorted input (statements included). -/
def fmt_brief (analysis : List Entity) : List String :=
  (briefBodyItems analysis).flatMap (fun item => item.render "brief") ++
    ["  total: " ++ toString (sortedNatural analysis).length]

/-- The inner `section(name)` generator of `fmt_summary`: the rendered
lines of `build_section(name, items)`; a lookup failure (unreachable for
the four fixed names) propagates as an error. -/
def summary_section (name : String) (items : List Entity) : Except ResolveErr (List String) :=
  match build_section (.str name) items none with
  | .error e => .error e
  | .ok (_, lines) => .ok lines

/-- `fmt_summary`: the four fixed sections in order, then a blank line and
`"grand total: <total>"` with `total = len(items)` computed from the full
input before any filtering. -/
def fmt_summary (analysis : List Entity) : Except ResolveErr (List String) :=
  let items := analysis
  let total := items.length
  match summary_section "types" items with
  | .error e => .error e
  | .ok s1 =>
    match summary_section "functions" items with
    | .error e => .error e
    | .ok s2 =>
      match summary_section "variables" items with
      | .error e => .error e
      | .ok s3 =>
        match summary_section "statements" items with
        | .error e => .error e
        | .ok s4 =>
          .ok (s1 ++ s2 ++ s3 ++ s4 ++ ["", "grand total: " ++ toString total])

/-- `fmt_full`: blank line, each entity's full rendering followed by a
blank line, then `"total: <count>"`; sorted by the derived `key`. -/
def fmt_full (analysis : List Entity) : List String :=
  let items := analysis.mergeSort (fun a b => !(strLt b.key a.key))
  "" :: (items.flatMap (fun item => item.render "full" ++ [""]) ++
    ["total: " ++ toString items.length])

/-- The `FORMATS` dict: format name to rendering strategy (the strategies
that cannot fail are wrapped in `.ok`). -/
def FORMATS : List (String × (List Entity → Except ResolveErr (List String))) :=
  [ ("raw", fun a => .ok (fmt_raw a)),
    ("brief", fun a => .ok (fmt_brief a)),
    ("summary", fmt_summary),
    ("full", fun a => .ok (fmt_full a)) ]

/-- Python `repr` of the `fmt` argument (`repr(None) = 'None'`). -/
def pyReprOfFmt : Option String → String
  | none => "None"
  | some s => pyRepr s

/-- `cmd_analyze`, with the filename plumbing, the verbosity-driven
per-file progress marks, and the external analyzer abstracted: format
selection (`formats[fmt]`, with `KeyError` turned into
`ValueError('unsupported fmt ...')`) happens before the analyzer runs and
before any line is printed; on success every produced line is printed. -/
def cmd_analyze (fmt : Option String) (analysis : List Entity) :
    List CmdEvent × CmdResult :=
  match (match fmt with | none => none | some s => FORMATS.lookup s) with
  | none => ([], .fmtError (.valueError ("unsupported fmt " ++ pyReprOfFmt fmt)))
  | some do_fmt =>
    match do_fmt analysis with
    | .error e => ([CmdEvent.logInfo "analyzing...", .analyze], .tableError e)
    | .ok lines =>
      ([CmdEvent.logInfo "analyzing...", .analyze] ++ lines.map CmdEvent.output, .ok)

/-! ### Sample entities (used by the witness theorems) -/

/-- A typedef `Point` in `geom.h` (spec section 8's example data). -/
def eTypedef : Entity :=
  { kind := .TYPEDEF
    name := "Point"
    filename := "geom.h"
    parent := none
    is_known := true
    shortkey := "Point"
    key := "typedef Point"
    rowdata := fun c => if c = "file" then "geom.h" else if c = "name" then "Point"
      else if c = "kind" then "typedef" else "<data>"
    render := fun _ => ["typedef Point"]
    rep := "<Point>" }

/-- A variable `buf` in `geom.c` with parent function `add` (spec section
8's failure example). -/
def eVar : Entity :=
  { kind := .VARIABLE
    name := "buf"
    filename := "geom.c"
    parent := some (.str "add")
    is_known := false
    shortkey := "(add).buf"
    key := "variable (add).buf"
    rowdata := fun c => if c = "file" then "geom.c" else if c = "name" then "buf"
      else if c = "parent" then "add" else "<data>"
    render := fun _ => ["variable buf"]
    rep := "<buf>" }

/-- A statement entity in `geom.c`. -/
def eStmt : Entity :=
  { kind := .STATEMENT
    name := "stmt0"
    filename := "geom.c"
    parent := some (.str "add")
    is_known := true
    shortkey := "stmt0"
    key := "statement stmt0"
    rowdata := fun c => if c = "file" then "geom.c" else "<data>"
    render := fun _ => ["statement stmt0"]
    rep := "<stmt0>" }

/-! ### Helper lemmas -/

theorem lookup_none_of_not_mem {α β : Type} [DecidableEq α]
    (l : List (α × β)) (k : α) (h : k ∉ l.map Prod.fst) : l.lookup k = none := by
  induction l with
  | nil => rfl
  | cons p rest ih =>
    simp only [List.map_cons, List.mem_cons] at h
    push_neg at h
    have hb : (k == p.1) = false := beq_eq_false_iff_ne.mpr h.1
    simp [List.lookup, hb, ih h.2]

/-- The running `total` counter of the `_render_table` loop ends at the
number of rows emitted. -/
theorem render_rows_eq (columns : List String) (relroot : Option String) :
    ∀ (items : List Entity) (total : Nat),
    render_rows columns relroot items total =
      items.map (fun item => String.intercalate "\t" (rowFor item columns relroot)) ++
        [TABLE_DIV, "total: " ++ toString (total + items.length)] := by
  intro items
  induction items with
  | nil => intro total; simp [render_rows]
  | cons item rest ih =>
    intro total
    have harith : total + 1 + rest.length = total + (rest.length + 1) := by omega
    simp [render_rows, ih, harith]

/-- The loop counter of `cmd_check` counts exactly the non-sentinel
entries before the first sentinel. -/
theorem check_loop_count (f : FailFmt) (div : Option String) (verbosity : Nat) :
    ∀ (results : List (Option Entity × String)) (n : Nat),
    (check_loop f div verbosity results n).2 = n + realCount results := by
  intro results
  induction results with
  | nil => intro n; simp [check_loop, realCount]
  | cons p rest ih =>
    intro n
    match p with
    | (none, msg) => simp [check_loop, realCount]
    | (some d, failure) =>
      simp only [check_loop, realCount, ih]
      omega

/-- If some requested name is missing from the registry, the left-to-right
check resolution raises a `KeyError` carrying a missing name. -/
theorem resolveOne_error {χ : Type} (registry : List (String × χ)) :
    ∀ (names : List String), (∃ c ∈ names, registry.lookup c = none) →
    ∃ c0, resolveOne registry names = .error c0 ∧ registry.lookup c0 = none := by
  intro names
  induction names with
  | nil => rintro ⟨c, hc, _⟩; cases hc
  | cons c cs ih =>
    rintro ⟨c1, hc1, hnone⟩
    by_cases hhead : registry.lookup c = none
    · exact ⟨c, by simp [resolveOne, hhead], hhead⟩
    · rcases List.mem_cons.mp hc1 with hEq | htail
      · subst hEq; exact absurd hnone hhead
      · obtain ⟨chk, hchk⟩ := Option.ne_none_iff_exists'.mp hhead
        obtain ⟨c0, hres, hc0⟩ := ih ⟨c1, htail, hnone⟩
        exact ⟨c0, by simp [resolveOne, hchk, hres], hc0⟩

/-- Filtering and sorting a section is idempotent. -/
theorem sortOf_idem (si : SectionInfo) (groupitems : List Entity) :
    sortOf si (sortOf si groupitems) = sortOf si groupitems := by
  unfold sortOf
  have hfil :
      ((groupitems.filter (fun v => si.match_kind v.kind)).mergeSort
          (fun a b => keyLe (si.sortkey a) (si.sortkey b))).filter
        (fun v => si.match_kind v.kind) =
      (groupitems.filter (fun v => si.match_kind v.kind)).mergeSort
        (fun a b => keyLe (si.sortkey a) (si.sortkey b)) := by
    rw [List.filter_eq_self]
    intro a ha
    rw [List.mem_mergeSort] at ha
    exact (List.mem_filter.mp ha).2
  rw [hfil]
  exact List.mergeSort_of_sorted
    (List.sorted_mergeSort
      (fun a b c h1 h2 => keyLe_trans (si.sortkey a) (si.sortkey b) (si.sortkey c) h1 h2)
      (fun a b => keyLe_total (si.sortkey a) (si.sortkey b)) _)

/-- Counting entities kind by kind over the six non-statement kinds counts
exactly the non-statement entities. -/
theorem count_by_kind (items : List Entity) :
    (items.filter (fun it => it.kind = KIND.TYPEDEF)).length +
      (items.filter (fun it => it.kind = KIND.STRUCT)).length +
      (items.filter (fun it => it.kind = KIND.UNION)).length +
      (items.filter (fun it => it.kind = KIND.ENUM)).length +
      (items.filter (fun it => it.kind = KIND.FUNCTION)).length +
      (items.filter (fun it => it.kind = KIND.VARIABLE)).length =
    (items.filter (fun it => it.kind ≠ KIND.STATEMENT)).length := by
  induction items with
  | nil => simp
  | cons it rest ih =>
    simp only [ne_eq, decide_not] at ih ⊢
    cases h : it.kind <;> simp [List.filter_cons, h] <;> omega

/-! ### The claims -/

/-- C1: for every nonempty entity collection, the summary format's line
sequence ends with a blank line followed by `grand total: <N>` where `N`
is the number of input entities, and `N` is the same for every
permutation of the input. -/
theorem fmt_summary_grand_total (xs : List Entity) (_hne : xs ≠ []) :
    (∃ pre, fmt_summary xs = .ok (pre ++ ["", "grand total: " ++ toString xs.length])) ∧
    ∀ ys, xs.Perm ys →
      ∃ pre, fmt_summary ys = .ok (pre ++ ["", "grand total: " ++ toString xs.length]) := by
  have shape : ∀ zs : List Entity,
      ∃ pre, fmt_summary zs = .ok (pre ++ ["", "grand total: " ++ toString zs.length]) := by
    intro zs
    obtain ⟨l1, h1⟩ : ∃ l, summary_section "types" zs = .ok l := ⟨_, rfl⟩
    obtain ⟨l2, h2⟩ : ∃ l, summary_section "functions" zs = .ok l := ⟨_, rfl⟩
    obtain ⟨l3, h3⟩ : ∃ l, summary_section "variables" zs = .ok l := ⟨_, rfl⟩
    obtain ⟨l4, h4⟩ : ∃ l, summary_section "statements" zs = .ok l := ⟨_, rfl⟩
    refine ⟨l1 ++ l2 ++ l3 ++ l4, ?_⟩
    simp [fmt_summary, h1, h2, h3, h4]
  refine ⟨shape xs, fun ys hp => ?_⟩
  obtain ⟨pre, hpre⟩ := shape ys
  exact ⟨pre, by rw [hpre, hp.length_eq]⟩

/-- C1 witness: the summary of a one-entity collection ends with a blank
line and `grand total: 1`. -/
theorem fmt_summary_grand_total_witness :
    ∃ pre, fmt_summary [eTypedef] =
      .ok (pre ++ ["", "grand total: " ++ toString (1 : Nat)]) :=
  (fmt_summary_grand_total [eTypedef] (List.cons_ne_nil _ _)).1

/-- C2 counterexample: a check run that finds one failure does not return
normally — `cmd_check` itself calls `sys.exit(numfailed)`. -/
theorem cmd_check_exits_on_failure :
    (cmd_check ([] : List (String × Unit)) [] (some "brief") 3 [(some eVar, "bad")]).2 =
      CmdResult.exited 1 ∧ CmdResult.exited 1 ≠ CmdResult.ok :=
  ⟨rfl, by decide⟩

/-- C2 amended: `cmd_check` computes the failure count; it returns
normally exactly when that count is zero, and otherwise terminates the
process itself via `sys.exit(count)` (it does not leave process exit to
the embedding command layer). -/
theorem cmd_check_exit_code {χ : Type} (registry : List (String × χ)) (checks : List String)
    (fmt : Option String) (verbosity : Nat) (results : List (Option Entity × String))
    (cs : List χ) (f : FailFmt) (dv : Option String)
    (h1 : resolveChecks registry checks = .ok cs)
    (h2 : get_check_handlers fmt = .ok (f, dv)) :
    (cmd_check registry checks fmt verbosity results).2 =
      if realCount results = 0 then CmdResult.ok
      else CmdResult.exited (realCount results) := by
  unfold cmd_check
  rw [h1, h2]
  simp only [check_loop_count f dv verbosity results 0, Nat.zero_add]
  rcases Nat.eq_zero_or_pos (realCount results) with hz | hp
  · simp [hz]
  · simp [Nat.pos_iff_ne_zero.mp hp, hp]

/-- C2 witness: with no failures the check command returns normally. -/
theorem cmd_check_exit_code_witness :
    (cmd_check ([] : List (String × Unit)) [] none 3 []).2 = CmdResult.ok :=
  cmd_check_exit_code ([] : List (String × Unit)) [] none 3 [] [] .plain (some "") rfl rfl

/-- C3: when the runner stream holds one real failure followed by the
`data = None` sentinel, `cmd_check` prints exactly one failure block and
the `stopping after one failure` notice, consumes nothing after the
sentinel (the result does not depend on `rest`), and counts 1 failure
(the sentinel is not counted). -/
theorem cmd_check_failfast {χ : Type} (registry : List (String × χ)) (checks : List String)
    (fmt : Option String) (verbosity : Nat)
    (cs : List χ) (f : FailFmt) (dv : Option String)
    (d : Entity) (failure msg : String) (rest : List (Option Entity × String))
    (h1 : resolveChecks registry checks = .ok cs)
    (h2 : get_check_handlers fmt = .ok (f, dv)) :
    cmd_check registry checks fmt verbosity ((some d, failure) :: (none, msg) :: rest) =
      ([CmdEvent.logInfo "analyzing...", .analyze, .logInfo "checking..."] ++
        handle_failure f verbosity failure d ++
        [CmdEvent.printerInfo "stopping after one failure"] ++
        [CmdEvent.printerInfo "-------------------------",
         .logInfo ("total failures: " ++ toString (1 : Nat)),
         .logInfo "done checking"],
       CmdResult.exited 1) := by
  have hloop : check_loop f dv verbosity ((some d, failure) :: (none, msg) :: rest) 0 =
      (handle_failure f verbosity failure d ++
        [CmdEvent.printerInfo "stopping after one failure"], 1) := by
    cases dv <;> simp [check_loop]
  simp [cmd_check, h1, h2, hloop]

/-- C3 witness: a concrete fail-fast run in brief format. -/
theorem cmd_check_failfast_witness :
    cmd_check ([] : List (String × Unit)) [] (some "brief") 3
        [(some eVar, "bad"), (none, "bad")] =
      ([CmdEvent.logInfo "analyzing...", .analyze, .logInfo "checking..."] ++
        handle_failure .brief 3 "bad" eVar ++
        [CmdEvent.printerInfo "stopping after one failure"] ++
        [CmdEvent.printerInfo "-------------------------",
         .logInfo ("total failures: " ++ toString (1 : Nat)),
         .logInfo "done checking"],
       CmdResult.exited 1) :=
  cmd_check_failfast ([] : List (String × Unit)) [] (some "brief") 3 [] .brief none
    eVar "bad" "bad" [] rfl rfl

/-- C4: a requested check name missing from the registry makes `cmd_check`
raise a `KeyError`-class condition eagerly: no event (no logging, no
output, no analyzer invocation) is produced. -/
theorem cmd_check_unknown_check {χ : Type} (registry : List (String × χ)) (checks : List String)
    (fmt : Option String) (verbosity : Nat) (results : List (Option Entity × String))
    (c : String) (hc : c ∈ checks) (hnone : registry.lookup c = none) :
    (cmd_check registry checks fmt verbosity results).1 = [] ∧
    ∃ c0, (cmd_check registry checks fmt verbosity results).2 = CmdResult.keyError c0 ∧
      registry.lookup c0 = none := by
  have hne : checks.isEmpty = false := by
    cases checks with
    | nil => cases hc
    | cons a as => rfl
  obtain ⟨c0, hres, hc0⟩ : ∃ c0, resolveOne registry checks = .error c0 ∧
      registry.lookup c0 = none :=
    resolveOne_error registry checks ⟨c, hc, hnone⟩
  have hchecks : resolveChecks registry checks = .error c0 := by
    unfold resolveChecks
    rw [hne]
    simpa using hres
  unfold cmd_check
  rw [hchecks]
  exact ⟨rfl, c0, rfl, hc0⟩

/-- C4 witness: requesting the unknown check `zzz` produces no events. -/
theorem cmd_check_unknown_check_witness :
    (cmd_check [("a", ())] ["a", "zzz"] none 3 []).1 = [] :=
  (cmd_check_unknown_check [("a", ())] ["a", "zzz"] none 3 [] "zzz"
    (by decide) (by decide)).1

/-- C5: every format identifier other than `raw`/`brief`/`summary`/`full`
(and, for failure presentation, the falsy default) fails with the
`unsupported fmt` configuration error before any output: the failure
handler selection raises `ValueError`, and `cmd_analyze` produces no event
at all; each of the four names (and the falsy default on the failure
side) succeeds. -/
theorem format_selection (s : String) (hs : s ∉ FORMAT_NAMES) (hne : s ≠ "") :
    get_check_handlers (some s) = .error (.valueError ("unsupported fmt " ++ pyRepr s)) ∧
    (∀ analysis, cmd_analyze (some s) analysis =
      ([], .fmtError (.valueError ("unsupported fmt " ++ pyRepr s)))) ∧
    (∀ t ∈ FORMAT_NAMES, (get_check_handlers (some t)).isOk = true ∧
      (FORMATS.lookup t).isSome = true) ∧
    (get_check_handlers none).isOk = true ∧
    (get_check_handlers (some "")).isOk = true := by
  have h4 : s ≠ "raw" ∧ s ≠ "brief" ∧ s ≠ "summary" ∧ s ≠ "full" := by
    refine ⟨?_, ?_, ?_, ?_⟩ <;> intro h <;> exact hs (by rw [h]; decide)
  refine ⟨?_, ?_, ?_, rfl, rfl⟩
  · simp [get_check_handlers, hne, h4.1, h4.2.1, h4.2.2.1, h4.2.2.2, hs]
  · intro analysis
    have hlf : FORMATS.lookup s = none := by
      apply lookup_none_of_not_mem
      intro hmem
      apply hs
      simpa [FORMATS, FORMAT_NAMES] using hmem
    simp [cmd_analyze, hlf, pyReprOfFmt]
  · intro t ht
    simp only [FORMAT_NAMES] at ht
    fin_cases ht <;> exact ⟨rfl, rfl⟩

/-- C5 witness: `json` is rejected before any output; `summary` is
accepted. -/
theorem format_selection_witness :
    get_check_handlers (some "json") =
      .error (.valueError ("unsupported fmt " ++ pyRepr "json")) ∧
    cmd_analyze (some "json") [] =
      ([], .fmtError (.valueError ("unsupported fmt " ++ pyRepr "json"))) ∧
    (get_check_handlers (some "summary")).isOk = true := by
  have h := format_selection "json" (by decide) (by decide)
  exact ⟨h.1, h.2.1 [], (h.2.2.1 "summary" (by decide)).1⟩

/-- C6: for every resolvable section name, `build_section`'s `render()`
yields a blank line, `"<name>:"`, a blank line, the tab-joined header,
a divider, one tab-joined row per filtered-and-sorted item, a divider and
`total: <k>` with `k` the number of filtered items; and with a (truthy)
root and `file` among the columns, the file-column cell of every row is
`relpath` of the entity's own file cell. -/
theorem build_section_render (k nm : TableKey) (tag : SectionTag)
    (items : List Entity) (root : Option String)
    (h : resolveSection k = .ok (nm, tag)) :
    build_section k items root =
      .ok (sortOf (sectionInfoOf tag) items,
        "" :: (nm.fstr ++ ":") :: "" ::
        String.intercalate "\t" (sectionInfoOf tag).columns :: TABLE_DIV ::
        ((sortOf (sectionInfoOf tag) items).map
          (fun item => String.intercalate "\t"
            (rowFor item (sectionInfoOf tag).columns root)) ++
          [TABLE_DIV, "total: " ++ toString (sortOf (sectionInfoOf tag) items).length])) ∧
    ∀ item r, root = some r → r ≠ "" → "file" ∈ (sectionInfoOf tag).columns →
      (rowFor item (sectionInfoOf tag).columns root).getD
          ((sectionInfoOf tag).columns.indexOf "file") "" =
        relpath (item.rowdata "file") r := by
  constructor
  · simp [build_section, h, render_table, render_rows_eq]
  · intro item r hr hrne hmem
    subst hr
    have hlen : (sectionInfoOf tag).columns.indexOf "file" <
        (sectionInfoOf tag).columns.length :=
      List.indexOf_lt_length.mpr hmem
    have hmaplen : (sectionInfoOf tag).columns.indexOf "file" <
        ((sectionInfoOf tag).columns.map item.rowdata).length := by
      simpa using hlen
    have hcell : ((sectionInfoOf tag).columns.map item.rowdata).getD
        ((sectionInfoOf tag).columns.indexOf "file") "" = item.rowdata "file" := by
      rw [List.getD_eq_getElem?_getD, List.getElem?_map,
        List.getElem?_eq_getElem hlen, List.getElem_indexOf hlen]
      rfl
    simp only [rowFor]
    rw [if_pos ⟨hrne, hmem⟩]
    rw [List.getD_eq_getElem?_getD, List.getElem?_set_self hmaplen]
    rw [hcell]
    rfl

/-- C6 witness: the `types` section of a one-typedef collection, with root
`/src`; the file cell goes through `relpath`. -/
theorem build_section_render_witness :
    build_section (.str "types") [eTypedef] (some "/src") =
      .ok (sortOf (sectionInfoOf .types) [eTypedef],
        "" :: ((TableKey.str "types").fstr ++ ":") :: "" ::
        String.intercalate "\t" (sectionInfoOf .types).columns :: TABLE_DIV ::
        ((sortOf (sectionInfoOf .types) [eTypedef]).map
          (fun item => String.intercalate "\t"
            (rowFor item (sectionInfoOf .types).columns (some "/src"))) ++
          [TABLE_DIV,
           "total: " ++ toString (sortOf (sectionInfoOf .types) [eTypedef]).length])) ∧
    (rowFor eTypedef (sectionInfoOf .types).columns (some "/src")).getD
        ((sectionInfoOf .types).columns.indexOf "file") "" =
      relpath (eTypedef.rowdata "file") "/src" :=
  ⟨(build_section_render (.str "types") (.str "types") .types [eTypedef]
      (some "/src") rfl).1,
   (build_section_render (.str "types") (.str "types") .types [eTypedef]
      (some "/src") rfl).2 eTypedef "/src" rfl (by decide) (by decide)⟩

/-- C7 counterexample: `TABLE_SECTIONS` has exactly four tuple-valued
(canonical) entries — "types", "functions", "variables", "statements" —
not six as the claim states. -/
theorem table_sections_not_six :
    (tableEntries.filter (fun e =>
      match e.2 with | .triple _ => true | .aliasTo _ => false)).length = 4 ∧
    (tableEntries.filter (fun e =>
      match e.2 with | .triple _ => true | .aliasTo _ => false)).length ≠ 6 := by
  decide

/-- C7 amended: for every key of the section-name table, the alias
resolution loop terminates (within the table-size fuel bound) and reaches
exactly one of the FOUR canonical sections' triples; for every name not
in the table, `build_section` fails with a lookup error and produces no
output lines. -/
theorem resolve_section_table :
    (∀ k ∈ tableKeys, (resolveSection k).isOk = true) ∧
    (∀ k, k ∉ tableKeys → ∀ items root,
      build_section k items root = Except.error .keyError) := by
  constructor
  · decide
  · intro k hk items root
    have hnone : lookupTable k = none := lookup_none_of_not_mem tableEntries k hk
    simp [build_section, resolveSection, hnone]

/-- C7 witness: the `KIND.TYPEDEF` key resolves; the unknown name `bogus`
is a lookup error with no output. -/
theorem resolve_section_table_witness :
    (resolveSection (.kind .TYPEDEF)).isOk = true ∧
    build_section (.str "bogus") [] none = Except.error .keyError :=
  ⟨resolve_section_table.1 (.kind .TYPEDEF) (by decide),
   resolve_section_table.2 (.str "bogus") (by decide) [] none⟩

/-- C8: the brief failure presenter prints the single line
`file:name - failure`, where `name` is `(parentFunc).entityName` when a
parent function name is present and just `entityName` otherwise, and only
the first tab-delimited segment of the failure message is shown; in
particular the variable `buf` in `geom.c` with parent `add` and message
`unsupported type\tdetails...` prints `geom.c:(add).buf - unsupported
type`. -/
theorem brief_failure_line (verbosity : Nat) (failure : String) (d : Entity) :
    handle_failure .brief verbosity failure d =
      [CmdEvent.output (d.filename ++ ":" ++
        (if d.funcname ≠ "" then "(" ++ d.funcname ++ ")." ++ d.name else d.name) ++
        " - " ++ firstTabSegment failure)] ∧
    handle_failure .brief 3 "unsupported type\tdetails..." eVar =
      [CmdEvent.output "geom.c:(add).buf - unsupported type"] :=
  ⟨rfl, by decide⟩

/-- C9: re-running the Section Builder on its own output (the filtered and
sorted items, as a fresh input collection) yields the same items in the
same order, the same rendered lines and hence the same total. -/
theorem build_section_idempotent (k : TableKey) (items its : List Entity)
    (lines : List String)
    (h : build_section k items none = .ok (its, lines)) :
    build_section k its none = .ok (its, lines) := by
  unfold build_section at h ⊢
  cases hres : resolveSection k with
  | error e => rw [hres] at h; cases h
  | ok p =>
    obtain ⟨nm, tag⟩ := p
    simp only [hres, Except.ok.injEq, Prod.mk.injEq] at h ⊢
    obtain ⟨hits, hlines⟩ := h
    subst hits
    subst hlines
    simp [sortOf_idem]

/-- C9 witness: the `types` section of a two-entity collection, rebuilt
from its own output. -/
theorem build_section_idempotent_witness :
    build_section (.str "types") (sortOf (sectionInfoOf .types) [eVar, eTypedef]) none =
      .ok (sortOf (sectionInfoOf .types) [eVar, eTypedef],
        "" :: ((TableKey.str "types").fstr ++ ":") :: "" ::
          render_table (sortOf (sectionInfoOf .types) [eVar, eTypedef])
            (sectionInfoOf .types).columns none) :=
  build_section_idempotent (.str "types") [eVar, eTypedef] _ _ rfl

/-- C10: the final line of the brief format is `  total: <N>` where `N`
counts ALL input entities including statement-kind ones, although
statement-kind entities are excluded from the rendered body; so when the
input contains a statement the printed total exceeds the number of
entities rendered. -/
theorem fmt_brief_total_counts_statements (analysis : List Entity) :
    (fmt_brief analysis).getLast? =
      some ("  total: " ++ toString analysis.length) ∧
    (∀ item ∈ briefBodyItems analysis, item.kind ≠ KIND.STATEMENT) ∧
    ((∃ item ∈ analysis, item.kind = KIND.STATEMENT) →
      (briefBodyItems analysis).length < analysis.length) := by
  refine ⟨?_, ?_, ?_⟩
  · simp [fmt_brief, sortedNatural, List.getLast?_concat, List.length_mergeSort]
  · intro item hmem
    simp only [briefBodyItems, List.mem_flatMap, List.mem_filter,
      decide_eq_true_eq] at hmem
    obtain ⟨kind, ⟨_, hkne⟩, _, hkeq⟩ := hmem
    rw [hkeq]
    exact hkne
  · rintro ⟨item, hitem, hstmt⟩
    have hbody : (briefBodyItems analysis).length =
        ((sortedNatural analysis).filter
          (fun it => it.kind ≠ KIND.STATEMENT)).length := by
      have hkl : KINDS.filter (fun k => k ≠ KIND.STATEMENT) =
          [KIND.TYPEDEF, .STRUCT, .UNION, .ENUM, .FUNCTION, .VARIABLE] := by decide
      rw [briefBodyItems, hkl]
      simp only [List.flatMap_cons, List.flatMap_nil, List.append_nil,
        List.length_append]
      have hcount := count_by_kind (sortedNatural analysis)
      omega
    have hperm : ((sortedNatural analysis).filter
        (fun it => it.kind ≠ KIND.STATEMENT)).length =
        (analysis.filter (fun it => it.kind ≠ KIND.STATEMENT)).length :=
      (List.Perm.filter _ (List.mergeSort_perm analysis _)).length_eq
    rw [hbody, hperm]
    refine List.length_filter_lt_length_iff_exists.mpr ⟨item, hitem, ?_⟩
    simp [hstmt]

/-- C10 witness: one statement entity — nothing rendered, total 1. -/
theorem fmt_brief_total_counts_statements_witness :
    (fmt_brief [eStmt]).getLast? = some ("  total: " ++ toString (1 : Nat)) ∧
    (briefBodyItems [eStmt]).length < 1 := by
  have h := fmt_brief_total_counts_statements [eStmt]
  exact ⟨h.1, h.2.2 ⟨eStmt, List.mem_singleton.mpr rfl, rfl⟩⟩

end CAnalyzer
